import Mathlib

/-!
Verification development for the `Bengo-Hub/auth-client` Go library
(shared JWT / API-key authentication client).

The Go sources are shallowly embedded as Lean definitions:

* `Claims` and its pure query helpers (SETUP.md embedded `claims.go`,
  full version with subscription data);
* the key store state of `Validator` and `fetchJWKS` (`validator.go`),
  with the HTTP response and JSON decoding of the body abstracted as
  an explicit input value;
* the `kid`-resolution closure of `ValidateToken` (`validator.go`);
* `APIKeyValidator.ValidateAPIKeyFull` and
  `APIKeyValidationResult.ToClaims` (the full `apikey.go` version);
* the authorization middleware gates `RequireRole`, `RequireFeature`,
  `RequireAnyFeature`, `RequirePlan`, `RequireActiveSubscription`
  (the middleware file), modelled as decision functions on `Claims`.

Go `map[string]V` values are embedded as association lists with
insert-replace semantics; `time.Time` instants as natural numbers.
-/

namespace AuthClient

/-- Association-list lookup, embedding Go `m[k]` (comma-ok form). -/
def mapLookup {V : Type} (m : List (String × V)) (k : String) : Option V :=
  match m with
  | [] => none
  | (k', v) :: rest => if k' = k then some v else mapLookup rest k

/-- Association-list insert with replacement, embedding Go `m[k] = v`. -/
def mapInsert {V : Type} (m : List (String × V)) (k : String) (v : V) :
    List (String × V) :=
  match m with
  | [] => [(k, v)]
  | (k', v') :: rest =>
      if k' = k then (k, v) :: rest else (k', v') :: mapInsert rest k v

/-- Association-list removal, embedding Go `delete(m, k)`. -/
def mapRemove {V : Type} (m : List (String × V)) (k : String) :
    List (String × V) :=
  match m with
  | [] => []
  | (k', v') :: rest =>
      if k' = k then mapRemove rest k else (k', v') :: mapRemove rest k

/-- Claims represents JWT claims from auth-service (SETUP.md `claims.go`,
full version).  Registered-claim fields used by the library (`Subject`,
`Issuer`, `Audience`) are inlined from `jwt.RegisteredClaims`. -/
structure Claims where
  SessionID : String := ""
  TenantID : String := ""
  TenantSlug : String := ""
  Scope : List String := []
  Email : String := ""
  Roles : List String := []
  SubscriptionPlan : String := ""
  SubscriptionFeatures : List String := []
  SubscriptionLimits : List (String × Int) := []
  SubscriptionStatus : String := ""
  ServiceName : String := ""
  IsService : Bool := false
  Subject : String := ""
  Issuer : String := ""
  Audience : List String := []
  deriving Repr, DecidableEq

/-- HasScope checks if the token has a specific scope. -/
def Claims.HasScope (c : Claims) (scope : String) : Bool :=
  c.Scope.any (fun s => s = scope)

/-- HasAnyScope checks if the token has any of the provided scopes. -/
def Claims.HasAnyScope (c : Claims) (scopes : List String) : Bool :=
  scopes.any (fun required => c.HasScope required)

/-- HasAllScopes checks if the token has all of the provided scopes. -/
def Claims.HasAllScopes (c : Claims) (scopes : List String) : Bool :=
  scopes.all (fun required => c.HasScope required)

/-- HasRole checks if the token has a specific role. -/
def Claims.HasRole (c : Claims) (role : String) : Bool :=
  c.Roles.any (fun r => r = role)

/-- HasAnyRole checks if the token has any of the provided roles. -/
def Claims.HasAnyRole (c : Claims) (roles : List String) : Bool :=
  roles.any (fun required => c.HasRole required)

/-- IsSuperuser checks if the token has the superuser role. -/
def Claims.IsSuperuser (c : Claims) : Bool :=
  c.HasRole "superuser"

/-- HasFeature checks if the subscription includes a specific feature. -/
def Claims.HasFeature (c : Claims) (feature : String) : Bool :=
  c.SubscriptionFeatures.any (fun f => f = feature)

/-- HasAnyFeature checks if the subscription includes any of the provided
features. -/
def Claims.HasAnyFeature (c : Claims) (features : List String) : Bool :=
  features.any (fun required => c.HasFeature required)

/-- IsSubscriptionActive checks if the subscription is currently active;
Go `switch` on `c.SubscriptionStatus` with a permissive `default`. -/
def Claims.IsSubscriptionActive (c : Claims) : Bool :=
  if c.SubscriptionStatus = "ACTIVE" ∨ c.SubscriptionStatus = "TRIAL" then
    true
  else if c.SubscriptionStatus = "EXPIRED" ∨ c.SubscriptionStatus = "CANCELLED"
      ∨ c.SubscriptionStatus = "SUSPENDED" then
    false
  else
    true

/-- PlanTier returns the subscription plan tier for comparison; Go `switch`
on `c.SubscriptionPlan`, unknown plans map to 0. -/
def Claims.PlanTier (c : Claims) : Int :=
  if c.SubscriptionPlan = "STARTER" ∨ c.SubscriptionPlan = "FREE" then 1
  else if c.SubscriptionPlan = "GROWTH" ∨ c.SubscriptionPlan = "BASIC" then 2
  else if c.SubscriptionPlan = "PROFESSIONAL" ∨ c.SubscriptionPlan = "PRO" then 3
  else if c.SubscriptionPlan = "ENTERPRISE" then 4
  else 0

/-- IsAtLeastPlan checks if the subscription is at least the specified plan
tier: the required tier is computed by applying `PlanTier` to a fresh
`Claims` whose plan is the argument. -/
def Claims.IsAtLeastPlan (c : Claims) (plan : String) : Bool :=
  c.PlanTier ≥ ({ SubscriptionPlan := plan : Claims }).PlanTier

/-- Decision of an authorization middleware gate: pass the request on, or
write an error response with an HTTP status and error code. -/
inductive GateDecision where
  | allow
  | deny (status : Nat) (code : String)
  deriving Repr, DecidableEq

/-- RequireRole middleware decision for a request whose context carries the
given claims (or none). -/
def RequireRole (roles : List String) (claims : Option Claims) : GateDecision :=
  match claims with
  | none => .deny 401 "unauthorized"
  | some c =>
      if c.IsSuperuser then .allow
      else if ¬ c.HasAnyRole roles then .deny 403 "unauthorized"
      else .allow

/-- RequireFeature middleware decision. -/
def RequireFeature (feature : String) (claims : Option Claims) : GateDecision :=
  match claims with
  | none => .deny 401 "unauthorized"
  | some c =>
      if c.IsSuperuser then .allow
      else if ¬ c.IsSubscriptionActive then .deny 403 "subscription_inactive"
      else if ¬ c.HasFeature feature then .deny 403 "feature_not_available"
      else .allow

/-- RequireAnyFeature middleware decision. -/
def RequireAnyFeature (features : List String) (claims : Option Claims) :
    GateDecision :=
  match claims with
  | none => .deny 401 "unauthorized"
  | some c =>
      if c.IsSuperuser then .allow
      else if ¬ c.IsSubscriptionActive then .deny 403 "subscription_inactive"
      else if ¬ c.HasAnyFeature features then .deny 403 "feature_not_available"
      else .allow

/-- RequirePlan middleware decision. -/
def RequirePlan (plan : String) (claims : Option Claims) : GateDecision :=
  match claims with
  | none => .deny 401 "unauthorized"
  | some c =>
      if c.IsSuperuser then .allow
      else if ¬ c.IsSubscriptionActive then .deny 403 "subscription_inactive"
      else if ¬ c.IsAtLeastPlan plan then .deny 403 "plan_upgrade_required"
      else .allow

/-- RequireActiveSubscription middleware decision. -/
def RequireActiveSubscription (claims : Option Claims) : GateDecision :=
  match claims with
  | none => .deny 401 "unauthorized"
  | some c =>
      if c.IsSuperuser then .allow
      else if ¬ c.IsSubscriptionActive then .deny 403 "subscription_inactive"
      else .allow

/-- Index of a character in the base64url alphabet (`A-Z a-z 0-9 - _`),
or `none` for a character outside it. -/
def b64Index (c : Char) : Option Nat :=
  if 'A' ≤ c ∧ c ≤ 'Z' then some (c.toNat - 65)
  else if 'a' ≤ c ∧ c ≤ 'z' then some (c.toNat - 97 + 26)
  else if '0' ≤ c ∧ c ≤ '9' then some (c.toNat - 48 + 52)
  else if c = '-' then some 62
  else if c = '_' then some 63
  else none

/-- Regroup a list of 6-bit values into 8-bit bytes, as Go's
`base64.RawURLEncoding.DecodeString` does for unpadded input: a trailing
group of a single sextet is an error, groups of 2 or 3 sextets yield 1 or 2
bytes (surplus low bits discarded), full groups of 4 yield 3 bytes. -/
def sextetsToBytes : List Nat → Option (List Nat)
  | [] => some []
  | [_] => none
  | [a, b] => some [a * 4 + b / 16]
  | [a, b, c] => some [a * 4 + b / 16, b % 16 * 16 + c / 4]
  | a :: b :: c :: d :: rest =>
      match sextetsToBytes rest with
      | none => none
      | some tail => some ([a * 4 + b / 16, b % 16 * 16 + c / 4, c % 4 * 64 + d] ++ tail)

/-- Go `base64.RawURLEncoding.DecodeString`: decodes an unpadded base64url
string into bytes, failing on characters outside the alphabet or on an
impossible length (length ≡ 1 mod 4). -/
def rawURLDecode (s : String) : Option (List Nat) :=
  match s.data.mapM b64Index with
  | none => none
  | some sx => sextetsToBytes sx

/-- Big-endian bytes to a natural number: Go `new(big.Int).SetBytes`. -/
def bytesToNatBE (bs : List Nat) : Nat :=
  bs.foldl (fun acc b => acc * 256 + b) 0

/-- Go exponent accumulation `eInt = eInt<<8 | int64(b)` over the decoded
exponent bytes: int64 arithmetic with wraparound, then `int(eInt)`
(64-bit). -/
def eFold (bs : List Nat) : Int :=
  let u : Nat := bs.foldl (fun acc b => (acc * 256 + b) % 2 ^ 64) 0
  if u < 2 ^ 63 then (u : Int) else (u : Int) - 2 ^ 64

/-- An `rsa.PublicKey` reconstructed from a JWKS entry. -/
structure RSAPublicKey where
  N : Nat
  E : Int
  deriving Repr, DecidableEq

/-- One entry of the JWKS document, as decoded by `fetchJWKS`. -/
structure JWK where
  Kty : String
  Kid : String
  Use : String
  Alg : String
  N : String
  E : String
  deriving Repr, DecidableEq

/-- The decoded JWKS document. -/
structure JWKS where
  Keys : List JWK
  deriving Repr, DecidableEq

/-- Validator configuration (`Config` in `validator.go`); the HTTP client
and durations are external to the embedding. -/
structure Config where
  JWKSUrl : String := ""
  Issuer : String := ""
  Audience : String := ""
  deriving Repr, DecidableEq

/-- The mutable state of a `Validator`: the cached `kid → *rsa.PublicKey`
mapping and the time of the last successful fetch. -/
structure ValidatorState where
  keys : List (String × RSAPublicKey)
  lastFetch : Nat
  deriving Repr, DecidableEq

/-- `getKey` reads the cached mapping (`validator.go`). -/
def getKey (st : ValidatorState) (kid : String) : Option RSAPublicKey :=
  mapLookup st.keys kid

/-- Outcome of the HTTP GET of the JWKS URL, with the JSON decoding of the
body abstracted: `none` stands for a body that fails to decode. -/
inductive HTTPResult where
  | networkError
  | response (status : Nat) (body : Option JWKS)
  deriving Repr, DecidableEq

/-- Result of one `fetchJWKS` call. -/
inductive FetchOutcome where
  | ok
  | networkError
  | badStatus (code : Nat)
  | decodeError
  deriving Repr, DecidableEq

/-- Whether `fetchJWKS` retains a JWKS entry: the filter on the Go
`continue` paths (`kty`/`use`/`alg` check and both base64url decodes). -/
def keepJWK (jwk : JWK) : Bool :=
  jwk.Kty = "RSA" ∧ jwk.Use = "sig" ∧ jwk.Alg = "RS256"
    ∧ (rawURLDecode jwk.N).isSome ∧ (rawURLDecode jwk.E).isSome

/-- The loop of `fetchJWKS` building `newKeys` from the decoded document,
starting from the empty map and inserting each retained entry under its
`kid`. -/
def buildKeysAux (acc : List (String × RSAPublicKey)) :
    List JWK → List (String × RSAPublicKey)
  | [] => acc
  | jwk :: rest =>
      if jwk.Kty = "RSA" ∧ jwk.Use = "sig" ∧ jwk.Alg = "RS256" then
        match rawURLDecode jwk.N, rawURLDecode jwk.E with
        | some nBytes, some eBytes =>
            buildKeysAux
              (mapInsert acc jwk.Kid
                { N := bytesToNatBE nBytes, E := eFold eBytes }) rest
        | _, _ => buildKeysAux acc rest
      else buildKeysAux acc rest

/-- `newKeys` as built by `fetchJWKS` from a decoded JWKS document. -/
def buildKeys (doc : JWKS) : List (String × RSAPublicKey) :=
  buildKeysAux [] doc.Keys

/-- `fetchJWKS` (`validator.go`): on a network error, a non-200 status or a
JSON decode failure the error is returned and the state is untouched; on
success the key mapping is replaced wholesale by the freshly built one and
`lastFetch` is set to the current time.  The singleflight deduplication
wrapper is a concurrency mechanism outside this sequential embedding; the
body below is the function executed by the deduplicated call. -/
def fetchJWKS (st : ValidatorState) (resp : HTTPResult) (now : Nat) :
    ValidatorState × FetchOutcome :=
  match resp with
  | .networkError => (st, .networkError)
  | .response status body =>
      if status ≠ 200 then (st, .badStatus status)
      else
        match body with
        | none => (st, .decodeError)
        | some doc => ({ keys := buildKeys doc, lastFetch := now }, .ok)

/-- Result of the `kid`-resolution closure inside `ValidateToken`. -/
inductive KeyfuncResult where
  | ok (key : RSAPublicKey)
  | missingKid
  | refreshFailed
  | keyNotFound
  deriving Repr, DecidableEq

/-- The key-resolution closure of `ValidateToken` (`validator.go` lines
73–92): extract the `kid` header, look the key up, and on a miss perform
one `fetchJWKS` refresh and retry the lookup once.  The final component
counts the refreshes performed. -/
def resolveKey (st : ValidatorState) (kid : Option String)
    (refreshResp : HTTPResult) (now : Nat) :
    ValidatorState × KeyfuncResult × Nat :=
  match kid with
  | none => (st, .missingKid, 0)
  | some k =>
      match getKey st k with
      | some key => (st, .ok key, 0)
      | none =>
          match fetchJWKS st refreshResp now with
          | (st', .ok) =>
              match getKey st' k with
              | some key => (st', .ok key, 1)
              | none => (st', .keyNotFound, 1)
          | (st', _) => (st', .refreshFailed, 1)

/-- Modelled from the spec: the shape of a structurally well-formed JWT as
seen through the external `golang-jwt/jwt/v5` parser (not part of this
repository's sources): the header's algorithm name and optional `kid`, the
decoded claims, and the results of the library's signature check (against a
resolved key) and of its temporal (`exp` / `nbf`) checks. -/
structure Token where
  alg : String
  kid : Option String
  claims : Claims
  sigValidFor : RSAPublicKey → Bool
  expOK : Bool
  nbfOK : Bool

/-- Errors of `ValidateToken`; the first six arise inside the external jwt
parser (wrapped as `parse token: ...`), the last two are the issuer and
audience checks written out in `ValidateToken` itself. -/
inductive ValidateError where
  | malformed
  | unsupportedAlgorithm
  | missingKid
  | refreshFailed
  | keyNotFound
  | expired
  | notYetValid
  | signatureInvalid
  | invalidIssuer
  | invalidAudience
  deriving Repr, DecidableEq

/-- The accepted signing algorithms: `NewValidator` constructs the parser
with `jwt.WithValidMethods([]string{jwt.SigningMethodRS256.Alg()})`, a
fixed singleton list independent of any token. -/
def validMethods : List String := ["RS256"]

/-- `ValidateToken` (`validator.go`).  The external jwt/v5 parser is
modelled from the spec: a token that fails structural parsing is rejected
as malformed; the header algorithm is checked against the parser's fixed
`validMethods` before the key function runs, so the accepted set is never
taken from the token; then the key function (`resolveKey`), the temporal
checks and the signature check run.  The issuer and audience checks that
follow are translated directly from the repository's own code: each is
skipped when the corresponding configuration string is empty, issuer by
exact equality, audience by membership in the token's audience list. -/
def ValidateToken (cfg : Config) (st : ValidatorState) (tok : Option Token)
    (refreshResp : HTTPResult) (now : Nat) :
    ValidatorState × Except ValidateError Claims :=
  match tok with
  | none => (st, .error .malformed)
  | some t =>
      if ¬ validMethods.contains t.alg then (st, .error .unsupportedAlgorithm)
      else
        match resolveKey st t.kid refreshResp now with
        | (st', .missingKid, _) => (st', .error .missingKid)
        | (st', .refreshFailed, _) => (st', .error .refreshFailed)
        | (st', .keyNotFound, _) => (st', .error .keyNotFound)
        | (st', .ok key, _) =>
            if ¬ t.expOK then (st', .error .expired)
            else if ¬ t.nbfOK then (st', .error .notYetValid)
            else if ¬ t.sigValidFor key then (st', .error .signatureInvalid)
            else if cfg.Issuer ≠ "" ∧ t.claims.Issuer ≠ cfg.Issuer then
              (st', .error .invalidIssuer)
            else if cfg.Audience ≠ "" ∧ ¬ t.claims.Audience.contains cfg.Audience then
              (st', .error .invalidAudience)
            else (st', .ok t.claims)

/-- A cached API key entry (`apiKeyInfo` in the full `apikey.go`). -/
structure APIKeyInfo where
  clientID : String
  tenantID : String
  scopes : List String
  roles : List String
  service : String
  subscriptionPlan : String
  subscriptionFeatures : List String
  subscriptionLimits : List (String × Int)
  subscriptionStatus : String
  expiresAt : Nat
  deriving Repr, DecidableEq

/-- `APIKeyValidationResult` (full `apikey.go`). -/
structure APIKeyValidationResult where
  ClientID : String := ""
  TenantID : String := ""
  Scopes : List String := []
  Roles : List String := []
  Service : String := ""
  SubscriptionPlan : String := ""
  SubscriptionFeatures : List String := []
  SubscriptionLimits : List (String × Int) := []
  SubscriptionStatus : String := ""
  deriving Repr, DecidableEq

/-- The cached fields rebuilt into a result, as the cache-hit branch of
`ValidateAPIKeyFull` does. -/
def infoToResult (i : APIKeyInfo) : APIKeyValidationResult :=
  { ClientID := i.clientID
    TenantID := i.tenantID
    Scopes := i.scopes
    Roles := i.roles
    Service := i.service
    SubscriptionPlan := i.subscriptionPlan
    SubscriptionFeatures := i.subscriptionFeatures
    SubscriptionLimits := i.subscriptionLimits
    SubscriptionStatus := i.subscriptionStatus }

/-- A fresh result stored into the cache with an absolute expiry, as the
success branch of `ValidateAPIKeyFull` does. -/
def resultToInfo (r : APIKeyValidationResult) (expiry : Nat) : APIKeyInfo :=
  { clientID := r.ClientID
    tenantID := r.TenantID
    scopes := r.Scopes
    roles := r.Roles
    service := r.Service
    subscriptionPlan := r.SubscriptionPlan
    subscriptionFeatures := r.SubscriptionFeatures
    subscriptionLimits := r.SubscriptionLimits
    subscriptionStatus := r.SubscriptionStatus
    expiresAt := expiry }

/-- The mutable state of an `APIKeyValidator`: the cache map and the fixed
TTL (seconds). -/
structure APIKeyValidatorState where
  cache : List (String × APIKeyInfo)
  cacheTTL : Nat
  deriving Repr, DecidableEq

/-- `NewAPIKeyValidator` starts with an empty cache and `cacheTTL` of
5 minutes (300 seconds); the base URL and HTTP client are external to the
embedding. -/
def NewAPIKeyValidator : APIKeyValidatorState :=
  { cache := [], cacheTTL := 300 }

/-- Outcome of the remote introspection HTTP call, with the JSON decoding
of the body abstracted: `none` stands for a body that fails to decode. -/
inductive RemoteResult where
  | networkError
  | response (status : Nat) (body : Option APIKeyValidationResult)
  deriving Repr, DecidableEq

/-- Errors of `ValidateAPIKeyFull`. -/
inductive APIKeyError where
  | requestFailed
  | invalidStatus (code : Nat)
  | decodeError
  deriving Repr, DecidableEq

/-- The remote-call tail of `ValidateAPIKeyFull`: call the introspection
endpoint, reject non-200 or an undecodable body, otherwise cache the result
under the key with expiry `now + cacheTTL` and return it. -/
def remoteValidate (st : APIKeyValidatorState) (apiKey : String) (now : Nat)
    (remote : RemoteResult) :
    APIKeyValidatorState × Except APIKeyError APIKeyValidationResult :=
  match remote with
  | .networkError => (st, .error .requestFailed)
  | .response status body =>
      if status ≠ 200 then (st, .error (.invalidStatus status))
      else
        match body with
        | none => (st, .error .decodeError)
        | some result =>
            ({ st with
                cache := mapInsert st.cache apiKey
                  (resultToInfo result (now + st.cacheTTL)) },
              .ok result)

/-- `ValidateAPIKeyFull` (full `apikey.go`): serve a fresh cache entry
without touching the network; evict an expired entry and fall through to
the remote call; otherwise call the remote endpoint.  The final component
counts the remote HTTP calls made. -/
def ValidateAPIKeyFull (st : APIKeyValidatorState) (apiKey : String)
    (now : Nat) (remote : RemoteResult) :
    APIKeyValidatorState × Except APIKeyError APIKeyValidationResult × Nat :=
  match mapLookup st.cache apiKey with
  | some info =>
      if now < info.expiresAt then (st, .ok (infoToResult info), 0)
      else
        let st1 := { st with cache := mapRemove st.cache apiKey }
        let (st2, res) := remoteValidate st1 apiKey now remote
        (st2, res, 1)
  | none =>
      let (st2, res) := remoteValidate st apiKey now remote
      (st2, res, 1)

/-- `APIKeyValidationResult.ToClaims` (full `apikey.go`): note that the
service-account flag is `r.Service != ""` and that `Subject` is not set
here. -/
def APIKeyValidationResult.ToClaims (r : APIKeyValidationResult) : Claims :=
  { TenantID := r.TenantID
    Scope := r.Scopes
    Roles := r.Roles
    ServiceName := r.Service
    IsService := r.Service != ""
    SubscriptionPlan := r.SubscriptionPlan
    SubscriptionFeatures := r.SubscriptionFeatures
    SubscriptionLimits := r.SubscriptionLimits
    SubscriptionStatus := r.SubscriptionStatus }

/-- The claims attached by `RequireAuth` on the API-key fallback path
(middleware file): `result.ToClaims()` followed by
`claims.Subject = result.ClientID`. -/
def requireAuthAPIKeyClaims (r : APIKeyValidationResult) : Claims :=
  { r.ToClaims with Subject := r.ClientID }

/-- Claim C9: `IsSubscriptionActive` returns true exactly when the
subscription status is "ACTIVE" or "TRIAL" or any value outside the five
known statuses (including empty/unset), and false exactly when it is
"EXPIRED", "CANCELLED" or "SUSPENDED". -/
theorem isSubscriptionActive_characterization (c : Claims) :
    (c.IsSubscriptionActive = true ↔
      c.SubscriptionStatus = "ACTIVE" ∨ c.SubscriptionStatus = "TRIAL" ∨
        c.SubscriptionStatus ∉
          (["ACTIVE", "TRIAL", "EXPIRED", "CANCELLED", "SUSPENDED"] :
            List String)) ∧
    (c.IsSubscriptionActive = false ↔
      c.SubscriptionStatus ∈
        (["EXPIRED", "CANCELLED", "SUSPENDED"] : List String)) := by
  by_cases hA : c.SubscriptionStatus = "ACTIVE" <;>
    by_cases hT : c.SubscriptionStatus = "TRIAL" <;>
    by_cases hE : c.SubscriptionStatus = "EXPIRED" <;>
    by_cases hC : c.SubscriptionStatus = "CANCELLED" <;>
    by_cases hS : c.SubscriptionStatus = "SUSPENDED" <;>
    simp_all [Claims.IsSubscriptionActive]

/-- Concrete instantiation of `isSubscriptionActive_characterization` at an
unset subscription status. -/
theorem isSubscriptionActive_characterization_witness :
    (({} : Claims).IsSubscriptionActive = true ↔
      ({} : Claims).SubscriptionStatus = "ACTIVE" ∨
        ({} : Claims).SubscriptionStatus = "TRIAL" ∨
        ({} : Claims).SubscriptionStatus ∉
          (["ACTIVE", "TRIAL", "EXPIRED", "CANCELLED", "SUSPENDED"] :
            List String)) ∧
    (({} : Claims).IsSubscriptionActive = false ↔
      ({} : Claims).SubscriptionStatus ∈
        (["EXPIRED", "CANCELLED", "SUSPENDED"] : List String)) :=
  isSubscriptionActive_characterization {}

/-- Claim C10: for every plan-name string outside the seven recognized
names, the required tier is 0, and `IsAtLeastPlan` returns true for every
claims value, so such a plan gate imposes no plan restriction. -/
theorem isAtLeastPlan_unknown_plan (c : Claims) (p : String)
    (h : p ∉ (["STARTER", "FREE", "GROWTH", "BASIC", "PROFESSIONAL", "PRO",
      "ENTERPRISE"] : List String)) :
    ({ SubscriptionPlan := p : Claims }).PlanTier = 0 ∧
      c.IsAtLeastPlan p = true := by
  simp only [List.mem_cons, List.not_mem_nil, or_false, not_or] at h
  obtain ⟨h1, h2, h3, h4, h5, h6, h7⟩ := h
  have hreq : ({ SubscriptionPlan := p : Claims }).PlanTier = 0 := by
    unfold Claims.PlanTier
    simp [h1, h2, h3, h4, h5, h6, h7]
  refine ⟨hreq, ?_⟩
  have hge : c.PlanTier ≥ 0 := by
    unfold Claims.PlanTier
    split_ifs <;> norm_num
  unfold Claims.IsAtLeastPlan
  rw [hreq]
  simpa using hge

/-- Concrete instantiation of `isAtLeastPlan_unknown_plan` at a misspelled
plan name. -/
theorem isAtLeastPlan_unknown_plan_witness :
    ({ SubscriptionPlan := "PROFESIONAL" : Claims }).PlanTier = 0 ∧
      ({} : Claims).IsAtLeastPlan "PROFESIONAL" = true :=
  isAtLeastPlan_unknown_plan {} "PROFESIONAL" (by decide)

/-- Claim C2: a claims value whose role list contains "superuser" passes
every role, feature, plan and active-subscription gate, regardless of its
other fields. -/
theorem superuser_bypasses_all_gates (c : Claims) (roles features : List String)
    (feature plan : String) (h : c.HasRole "superuser" = true) :
    RequireRole roles (some c) = .allow ∧
    RequireFeature feature (some c) = .allow ∧
    RequireAnyFeature features (some c) = .allow ∧
    RequirePlan plan (some c) = .allow ∧
    RequireActiveSubscription (some c) = .allow := by
  have hs : c.IsSuperuser = true := h
  simp [RequireRole, RequireFeature, RequireAnyFeature, RequirePlan,
    RequireActiveSubscription, hs]

/-- Concrete instantiation of `superuser_bypasses_all_gates`: a superuser
with no scopes, no features, an expired subscription and no plan passes
every gate. -/
theorem superuser_bypasses_all_gates_witness :
    RequireRole ["admin"]
        (some { Roles := ["superuser"], SubscriptionStatus := "EXPIRED" }) = .allow ∧
    RequireFeature "reports"
        (some { Roles := ["superuser"], SubscriptionStatus := "EXPIRED" }) = .allow ∧
    RequireAnyFeature ["reports", "exports"]
        (some { Roles := ["superuser"], SubscriptionStatus := "EXPIRED" }) = .allow ∧
    RequirePlan "ENTERPRISE"
        (some { Roles := ["superuser"], SubscriptionStatus := "EXPIRED" }) = .allow ∧
    RequireActiveSubscription
        (some { Roles := ["superuser"], SubscriptionStatus := "EXPIRED" }) = .allow :=
  superuser_bypasses_all_gates
    { Roles := ["superuser"], SubscriptionStatus := "EXPIRED" }
    ["admin"] ["reports", "exports"] "reports" "ENTERPRISE" (by decide)

/-- Claim C8, counterexample: for a validation result whose service name is
empty, `ToClaims` leaves the service-account flag false (the code sets it
to `r.Service != ""`, not to true), so the claim as stated fails. -/
theorem toClaims_service_flag_counterexample :
    ¬ (({ ClientID := "client-1", Service := "" } :
        APIKeyValidationResult).ToClaims.IsService = true ∧
       ({ ClientID := "client-1", Service := "" } :
        APIKeyValidationResult).ToClaims.Subject = "client-1") := by
  decide

/-- Claim C8, amended: `ToClaims` sets the service-account flag to whether
the service name is non-empty and leaves the subject empty; the
`RequireAuth` middleware then sets the subject to the client identifier
after the conversion. -/
theorem toClaims_flag_and_subject (r : APIKeyValidationResult) :
    r.ToClaims.IsService = (r.Service != "") ∧
    r.ToClaims.Subject = "" ∧
    (requireAuthAPIKeyClaims r).Subject = r.ClientID ∧
    (requireAuthAPIKeyClaims r).IsService = (r.Service != "") := by
  simp [APIKeyValidationResult.ToClaims, requireAuthAPIKeyClaims]

/-- Claim C3: every failing execution of `fetchJWKS` (network error,
non-200 status, or JSON decode failure) leaves the cached key state exactly
as it was. -/
theorem fetchJWKS_failure_preserves_state (st : ValidatorState)
    (resp : HTTPResult) (now : Nat)
    (h : (fetchJWKS st resp now).2 ≠ .ok) :
    (fetchJWKS st resp now).1 = st := by
  unfold fetchJWKS at *
  cases resp with
  | networkError => rfl
  | response status body =>
      by_cases hs : status = 200
      · subst hs
        cases body with
        | none => rfl
        | some doc => simp at h
      · simp [hs]

/-- Concrete instantiation of `fetchJWKS_failure_preserves_state` at a 500
response: the previously cached key survives. -/
theorem fetchJWKS_failure_preserves_state_witness :
    (fetchJWKS { keys := [("k1", { N := 91, E := 5 })], lastFetch := 7 }
        (.response 500 none) 9).2 ≠ .ok ∧
    (fetchJWKS { keys := [("k1", { N := 91, E := 5 })], lastFetch := 7 }
        (.response 500 none) 9).1 =
      { keys := [("k1", { N := 91, E := 5 })], lastFetch := 7 } :=
  ⟨by decide,
    fetchJWKS_failure_preserves_state
      { keys := [("k1", { N := 91, E := 5 })], lastFetch := 7 }
      (.response 500 none) 9 (by decide)⟩

/-- Claim C4: when the token's `kid` is absent from the cached mapping, the
key-resolution closure performs exactly one refresh and retries the lookup
exactly once; if the refresh fails it reports the refresh failure, and if
the key is still absent after the successful refresh it reports the key as
unknown.  No second refresh ever happens. -/
theorem resolveKey_single_retry (st : ValidatorState) (k : String)
    (resp : HTTPResult) (now : Nat) (h : getKey st k = none) :
    (resolveKey st (some k) resp now).2.2 = 1 ∧
    ((fetchJWKS st resp now).2 ≠ .ok →
      (resolveKey st (some k) resp now).2.1 = .refreshFailed) ∧
    ((fetchJWKS st resp now).2 = .ok →
      getKey (fetchJWKS st resp now).1 k = none →
      (resolveKey st (some k) resp now).2.1 = .keyNotFound) ∧
    ((fetchJWKS st resp now).2 = .ok →
      ∀ key, getKey (fetchJWKS st resp now).1 k = some key →
        (resolveKey st (some k) resp now).2.1 = .ok key) := by
  simp only [resolveKey, h]
  rcases hfetch : fetchJWKS st resp now with ⟨st', outcome⟩
  cases outcome <;> simp_all <;>
    (rcases hget : getKey st' k with _ | key <;> simp_all)

/-- Concrete instantiation of `resolveKey_single_retry`: an empty key
store, a refresh answering with a JWKS document that still lacks the
`kid`. -/
theorem resolveKey_single_retry_witness :
    getKey { keys := [], lastFetch := 0 } "k2" = none ∧
    (resolveKey { keys := [], lastFetch := 0 } (some "k2")
        (.response 200 (some { Keys := [] })) 3).2.2 = 1 ∧
    (resolveKey { keys := [], lastFetch := 0 } (some "k2")
        (.response 200 (some { Keys := [] })) 3).2.1 = .keyNotFound := by
  have h := resolveKey_single_retry { keys := [], lastFetch := 0 } "k2"
    (.response 200 (some { Keys := [] })) 3 (by decide)
  exact ⟨by decide, h.1, h.2.2.1 (by decide) (by decide)⟩

/-- Claim C1: a token whose header names any algorithm other than RS256 is
rejected as unsupported by `ValidateToken`, whatever the key store holds
(even a same-`kid` key); the accepted algorithm set is the fixed
`validMethods = ["RS256"]` installed by `NewValidator`, never read from
the token. -/
theorem validateToken_rejects_non_rs256 (cfg : Config) (st : ValidatorState)
    (t : Token) (resp : HTTPResult) (now : Nat) (h : t.alg ≠ "RS256") :
    (ValidateToken cfg st (some t) resp now).2 = .error .unsupportedAlgorithm ∧
    validMethods = ["RS256"] := by
  refine ⟨?_, rfl⟩
  unfold ValidateToken
  have hm : t.alg ∉ validMethods := by simp [validMethods, h]
  simp [hm]

/-- Concrete instantiation of `validateToken_rejects_non_rs256`: an HS256
token whose `kid` does exist in the key store is still rejected. -/
theorem validateToken_rejects_non_rs256_witness :
    (ValidateToken {} { keys := [("k1", { N := 91, E := 5 })], lastFetch := 0 }
        (some { alg := "HS256", kid := some "k1", claims := {},
                sigValidFor := fun _ => true, expOK := true, nbfOK := true })
        .networkError 0).2 = .error .unsupportedAlgorithm ∧
    validMethods = ["RS256"] :=
  validateToken_rejects_non_rs256 {}
    { keys := [("k1", { N := 91, E := 5 })], lastFetch := 0 }
    { alg := "HS256", kid := some "k1", claims := {},
      sigValidFor := fun _ => true, expOK := true, nbfOK := true }
    .networkError 0 (by decide)

/-- Inserting under `k` makes exactly `k` present, on top of what was
already present. -/
theorem mapLookup_mapInsert_isSome {V : Type} (m : List (String × V))
    (k kq : String) (v : V) :
    (mapLookup (mapInsert m k v) kq).isSome ↔
      k = kq ∨ (mapLookup m kq).isSome := by
  induction m with
  | nil =>
      by_cases h : k = kq <;> simp [mapInsert, mapLookup, h]
  | cons hd tl ih =>
      obtain ⟨k', v'⟩ := hd
      by_cases h1 : k' = k
      · subst h1
        by_cases h2 : k' = kq <;> simp [mapInsert, mapLookup, h2]
      · by_cases h2 : k' = kq
        · subst h2
          simp [mapInsert, mapLookup, h1]
        · simp [mapInsert, mapLookup, h1, h2, ih]

/-- A `kid` is present in the mapping built by the `fetchJWKS` loop iff it
was already in the accumulator or some retained document entry carries
it. -/
theorem buildKeysAux_lookup_isSome (l : List JWK)
    (acc : List (String × RSAPublicKey)) (kid : String) :
    (mapLookup (buildKeysAux acc l) kid).isSome ↔
      (∃ jwk ∈ l, jwk.Kid = kid ∧ keepJWK jwk = true) ∨
        (mapLookup acc kid).isSome := by
  induction l generalizing acc with
  | nil => simp [buildKeysAux]
  | cons jwk rest ih =>
      by_cases hf : jwk.Kty = "RSA" ∧ jwk.Use = "sig" ∧ jwk.Alg = "RS256"
      · rcases hN : rawURLDecode jwk.N with _ | nB
        · have hkeep : keepJWK jwk ≠ true := by simp [keepJWK, hN]
          simp only [buildKeysAux, if_pos hf, hN]
          rw [ih, List.exists_mem_cons_iff]
          simp [hkeep]
        · rcases hE : rawURLDecode jwk.E with _ | eB
          · have hkeep : keepJWK jwk ≠ true := by simp [keepJWK, hE]
            simp only [buildKeysAux, if_pos hf, hN, hE]
            rw [ih, List.exists_mem_cons_iff]
            simp [hkeep]
          · have hkeep : keepJWK jwk = true := by
              simp [keepJWK, hf.1, hf.2.1, hf.2.2, hN, hE]
            simp only [buildKeysAux, if_pos hf, hN, hE]
            rw [ih, mapLookup_mapInsert_isSome, List.exists_mem_cons_iff]
            constructor
            · rintro (hE' | hK | hA)
              · exact Or.inl (Or.inr hE')
              · exact Or.inl (Or.inl ⟨hK, hkeep⟩)
              · exact Or.inr hA
            · rintro ((⟨hK, _⟩ | hE') | hA)
              · exact Or.inr (Or.inl hK)
              · exact Or.inl hE'
              · exact Or.inr (Or.inr hA)
      · have hkeep : keepJWK jwk ≠ true := by
          intro hcontra
          simp only [keepJWK, decide_eq_true_eq] at hcontra
          exact hf ⟨hcontra.1, hcontra.2.1, hcontra.2.2.1⟩
        simp only [buildKeysAux, if_neg hf]
        rw [ih, List.exists_mem_cons_iff]
        simp [hkeep]

/-- Claim C5: a successful refresh succeeds as a whole (bad entries are
skipped, never fatal), replaces the mapping wholesale by the one built from
the fetched document alone (so stale `kid`s are evicted), and that mapping
holds a `kid` exactly when some document entry with that `kid` has
`kty=RSA`, `use="sig"`, `alg=RS256` and base64url-decodable `n` and `e`. -/
theorem fetchJWKS_success_rebuilds (st : ValidatorState) (now : Nat)
    (doc : JWKS) (kid : String) :
    (fetchJWKS st (.response 200 (some doc)) now).2 = .ok ∧
    (fetchJWKS st (.response 200 (some doc)) now).1.keys = buildKeys doc ∧
    ((mapLookup (buildKeys doc) kid).isSome ↔
      ∃ jwk ∈ doc.Keys, jwk.Kid = kid ∧ keepJWK jwk = true) := by
  refine ⟨rfl, rfl, ?_⟩
  simpa [buildKeys, mapLookup] using buildKeysAux_lookup_isSome doc.Keys [] kid

/-- Concrete instantiation of `fetchJWKS_success_rebuilds`: a document with
one good RSA key and one elliptic-curve key replaces a stale mapping. -/
theorem fetchJWKS_success_rebuilds_witness :
    (fetchJWKS { keys := [("stale", { N := 3, E := 3 })], lastFetch := 1 }
        (.response 200 (some { Keys :=
          [{ Kty := "RSA", Kid := "k1", Use := "sig", Alg := "RS256",
             N := "AQAB", E := "AQAB" },
           { Kty := "EC", Kid := "k2", Use := "sig", Alg := "ES256",
             N := "", E := "" }] })) 9).2 = .ok ∧
    (fetchJWKS { keys := [("stale", { N := 3, E := 3 })], lastFetch := 1 }
        (.response 200 (some { Keys :=
          [{ Kty := "RSA", Kid := "k1", Use := "sig", Alg := "RS256",
             N := "AQAB", E := "AQAB" },
           { Kty := "EC", Kid := "k2", Use := "sig", Alg := "ES256",
             N := "", E := "" }] })) 9).1.keys =
      buildKeys { Keys :=
          [{ Kty := "RSA", Kid := "k1", Use := "sig", Alg := "RS256",
             N := "AQAB", E := "AQAB" },
           { Kty := "EC", Kid := "k2", Use := "sig", Alg := "ES256",
             N := "", E := "" }] } ∧
    ((mapLookup (buildKeys { Keys :=
          [{ Kty := "RSA", Kid := "k1", Use := "sig", Alg := "RS256",
             N := "AQAB", E := "AQAB" },
           { Kty := "EC", Kid := "k2", Use := "sig", Alg := "ES256",
             N := "", E := "" }] }) "stale").isSome ↔
      ∃ jwk ∈ ({ Keys :=
          [{ Kty := "RSA", Kid := "k1", Use := "sig", Alg := "RS256",
             N := "AQAB", E := "AQAB" },
           { Kty := "EC", Kid := "k2", Use := "sig", Alg := "ES256",
             N := "", E := "" }] } : JWKS).Keys,
        jwk.Kid = "stale" ∧ keepJWK jwk = true) :=
  fetchJWKS_success_rebuilds
    { keys := [("stale", { N := 3, E := 3 })], lastFetch := 1 } 9
    { Keys :=
        [{ Kty := "RSA", Kid := "k1", Use := "sig", Alg := "RS256",
           N := "AQAB", E := "AQAB" },
         { Kty := "EC", Kid := "k2", Use := "sig", Alg := "ES256",
           N := "", E := "" }] } "stale"

/-- Claim C7: `ValidateAPIKeyFull`'s cache discipline.  A fresh cache entry
is returned with no remote call and the cache untouched; an expired entry
is evicted and exactly one remote call made; a cache miss makes exactly one
remote call; a 200 response with a decodable body is stored under the key
with absolute expiry `now + cacheTTL`; a network failure or non-200 status
returns an error and stores nothing; the TTL defaults to 5 minutes
(300 seconds). -/
theorem validateAPIKeyFull_cache_behavior (st : APIKeyValidatorState)
    (k : String) (now : Nat) (remote : RemoteResult) :
    (∀ info, mapLookup st.cache k = some info → now < info.expiresAt →
      ValidateAPIKeyFull st k now remote = (st, .ok (infoToResult info), 0)) ∧
    (∀ info, mapLookup st.cache k = some info → ¬ now < info.expiresAt →
      ValidateAPIKeyFull st k now remote =
        ((remoteValidate { st with cache := mapRemove st.cache k } k now remote).1,
         (remoteValidate { st with cache := mapRemove st.cache k } k now remote).2,
         1)) ∧
    (mapLookup st.cache k = none →
      ValidateAPIKeyFull st k now remote =
        ((remoteValidate st k now remote).1,
         (remoteValidate st k now remote).2, 1)) ∧
    (∀ st2 r, remote = .response 200 (some r) →
      remoteValidate st2 k now remote =
        ({ st2 with cache :=
            mapInsert st2.cache k (resultToInfo r (now + st2.cacheTTL)) },
         .ok r)) ∧
    (∀ st2, remote = .networkError →
      remoteValidate st2 k now remote = (st2, .error .requestFailed)) ∧
    (∀ st2 s b, remote = .response s b → s ≠ 200 →
      remoteValidate st2 k now remote = (st2, .error (.invalidStatus s))) ∧
    NewAPIKeyValidator.cacheTTL = 300 := by
  refine ⟨?_, ?_, ?_, ?_, ?_, ?_, rfl⟩
  · intro info hinfo hfresh
    simp [ValidateAPIKeyFull, hinfo, hfresh]
  · intro info hinfo hexp
    simp [ValidateAPIKeyFull, hinfo, hexp]
  · intro hmiss
    simp [ValidateAPIKeyFull, hmiss]
  · intro st2 r hr
    subst hr
    simp [remoteValidate]
  · intro st2 hr
    subst hr
    rfl
  · intro st2 s b hr hs
    subst hr
    simp [remoteValidate, hs]

/-- Concrete instantiation of `validateAPIKeyFull_cache_behavior` on the
fresh-cache-hit branch: the cached fields come back with zero remote
calls even when the network is down. -/
theorem validateAPIKeyFull_cache_behavior_witness :
    ValidateAPIKeyFull
        { cache := [("key-1",
            { clientID := "c1", tenantID := "t1", scopes := ["s1"],
              roles := [], service := "svc", subscriptionPlan := "",
              subscriptionFeatures := [], subscriptionLimits := [],
              subscriptionStatus := "", expiresAt := 120 })],
          cacheTTL := 300 } "key-1" 60 .networkError =
      ({ cache := [("key-1",
            { clientID := "c1", tenantID := "t1", scopes := ["s1"],
              roles := [], service := "svc", subscriptionPlan := "",
              subscriptionFeatures := [], subscriptionLimits := [],
              subscriptionStatus := "", expiresAt := 120 })],
          cacheTTL := 300 },
        .ok (infoToResult
            { clientID := "c1", tenantID := "t1", scopes := ["s1"],
              roles := [], service := "svc", subscriptionPlan := "",
              subscriptionFeatures := [], subscriptionLimits := [],
              subscriptionStatus := "", expiresAt := 120 }), 0) :=
  (validateAPIKeyFull_cache_behavior
      { cache := [("key-1",
          { clientID := "c1", tenantID := "t1", scopes := ["s1"],
            roles := [], service := "svc", subscriptionPlan := "",
            subscriptionFeatures := [], subscriptionLimits := [],
            subscriptionStatus := "", expiresAt := 120 })],
        cacheTTL := 300 } "key-1" 60 .networkError).1
    { clientID := "c1", tenantID := "t1", scopes := ["s1"],
      roles := [], service := "svc", subscriptionPlan := "",
      subscriptionFeatures := [], subscriptionLimits := [],
      subscriptionStatus := "", expiresAt := 120 } (by decide) (by decide)

end AuthClient
